import Mathlib

/-
  Verification of the patient-dashboard core of the `dex_test` repository:
  identity resolution (`getCurrentPatientId`, `getPatientIdFromAppointment`),
  the single-pass filter and aggregate
  (`filterAppointmentsForPatientAndCountUpcoming`) from
  `PatientDashboard`, and the booking-form validation
  (`isDateInFuture`, `isBusinessHours`, `getFieldValidationError`,
  `validateBookingForm`) from `Appointments.jsx`.

  Modelling conventions for the JavaScript source:
  * nullish values (`null` / `undefined` / absent field) are one constructor;
  * the polymorphic owner fields of an appointment record are a small JS
    value type: nullish, a primitive string, or a plain object whose `_id`
    property is either a string or nullish;
  * `String(v)` on a plain object yields the literal "[object Object]";
  * a parsed `Date` is a local day index plus a minute-of-day offset; the
    value produced by `new Date()` followed by `setHours(0,0,0,0)` is the
    timestamp `day * 1440`; the ambient clock is threaded as an explicit
    `today` parameter.
-/

set_option autoImplicit false

namespace DexTest

/-- Model of a JavaScript value sitting in one of the polymorphic owner
fields of an appointment record. -/
inductive JsVal where
  | nullish
  | str (s : String)
  | obj (id : Option String)
deriving DecidableEq, Repr

/-- `v == null || v == undefined`. -/
def JsVal.isNullish : JsVal → Bool
  | .nullish => true
  | _ => false

/-- Optional chaining `v?._id`: nullish short-circuits to undefined, a
property access on a primitive string yields undefined, on an object it
yields the `_id` property (itself possibly nullish). -/
def optIdAccess : JsVal → JsVal
  | .nullish => .nullish
  | .str _ => .nullish
  | .obj none => .nullish
  | .obj (some s) => .str s

/-- Nullish coalescing `a ?? b`. -/
def coalesce (a b : JsVal) : JsVal :=
  if a.isNullish then b else a

/-- `String(v)` after the trailing `?? ''` of the resolution chain: a
nullish chain result became `''`, a primitive string is itself, a plain
object stringifies to "[object Object]". -/
def jsToString : JsVal → String
  | .nullish => ""
  | .str s => s
  | .obj _ => "[object Object]"

/-- A local date-time: day index plus minute of day.  A well-formed value
has `minuteOfDay < 1440`. -/
structure LocalDateTime where
  day : Int
  minuteOfDay : Nat
deriving DecidableEq, Repr

/-- Minutes in a day. -/
def minutesPerDay : Nat := 1440

/-- The instant as a minute timestamp, the order on which models the JS
`Date` comparison. -/
def LocalDateTime.timestamp (d : LocalDateTime) : Int :=
  d.day * minutesPerDay + d.minuteOfDay

/-- An appointment record as consumed by the dashboard: the four possible
owner fields, the date, and the status string. -/
structure AppointmentRec where
  patient : JsVal
  patientId : JsVal
  user : JsVal
  userId : JsVal
  appointmentDate : LocalDateTime
  status : String
deriving DecidableEq, Repr

/-- Embedding of `getPatientIdFromAppointment` (PatientDashboard):
`String(a.patient?._id ?? a.patient ?? a.patientId ?? a.user?._id ??
a.user ?? a.userId ?? '')`. -/
def getPatientIdFromAppointment (a : AppointmentRec) : String :=
  jsToString
    (coalesce (optIdAccess a.patient)
      (coalesce a.patient
        (coalesce a.patientId
          (coalesce (optIdAccess a.user)
            (coalesce a.user a.userId)))))

/-- Result record of the single-pass filter. -/
structure FilterResult where
  patientAppointments : List AppointmentRec
  upcomingCount : Nat
deriving DecidableEq, Repr

/-- The status values counted as upcoming by the loop body. -/
def statusIsUpcoming (status : String) : Bool :=
  status = "confirmed" || status = "pending"

/-- The upcoming condition exactly as the loop body tests it:
`new Date(a.appointmentDate) >= todayStart && (status confirmed or
pending)`. -/
def loopUpcomingTest (todayStart : Int) (a : AppointmentRec) : Bool :=
  decide (todayStart ≤ a.appointmentDate.timestamp) && statusIsUpcoming a.status

/-- Body of the `for` loop of `filterAppointmentsForPatientAndCountUpcoming`,
as a structural recursion over the remaining records.  `todayStart` is the
timestamp of `new Date()` with hours zeroed. -/
def filterLoop (todayStart : Int) (patientId : String) :
    List AppointmentRec → FilterResult
  | [] => { patientAppointments := [], upcomingCount := 0 }
  | a :: rest =>
    let r := filterLoop todayStart patientId rest
    if getPatientIdFromAppointment a = patientId then
      { patientAppointments := a :: r.patientAppointments
        upcomingCount :=
          (if loopUpcomingTest todayStart a then 1 else 0) + r.upcomingCount }
    else r

/-- Embedding of `filterAppointmentsForPatientAndCountUpcoming`
(PatientDashboard).  The hidden clock read `new Date()` + `setHours(0,0,0,0)`
is passed in as the current local day `today`, so `todayStart` is the
timestamp `today * 1440`.  The JS guard `if (!patientId)` on a string is
the empty-string test. -/
def filterAppointmentsForPatientAndCountUpcoming
    (appointments : List AppointmentRec) (patientId : String)
    (today : Int) : FilterResult :=
  if patientId = "" then { patientAppointments := [], upcomingCount := 0 }
  else filterLoop (today * minutesPerDay) patientId appointments

theorem filterLoop_patientAppointments (todayStart : Int) (patientId : String)
    (l : List AppointmentRec) :
    (filterLoop todayStart patientId l).patientAppointments =
      l.filter (fun a => decide (getPatientIdFromAppointment a = patientId)) := by
  induction l with
  | nil => rfl
  | cons a rest ih =>
    by_cases h : getPatientIdFromAppointment a = patientId
    · simp [filterLoop, h, ih]
    · simp [filterLoop, h, ih]

/-- C1: with an empty (falsy) patientId the filter returns the fixed empty
result on every input list, hence the same result for any two lists: no
patient data can reach an unauthenticated caller. -/
theorem filter_empty_patientId_leaks_nothing
    (l₁ l₂ : List AppointmentRec) (t₁ t₂ : Int) :
    filterAppointmentsForPatientAndCountUpcoming l₁ "" t₁ =
      { patientAppointments := [], upcomingCount := 0 } ∧
    filterAppointmentsForPatientAndCountUpcoming l₁ "" t₁ =
      filterAppointmentsForPatientAndCountUpcoming l₂ "" t₂ := by
  constructor <;> simp [filterAppointmentsForPatientAndCountUpcoming]

/-- C2: with a non-empty patientId the returned list is exactly the filter
of the input by owner equality, hence the matching records in their
original relative order (a stable subsequence); the embedding is the single
traversal of the source loop. -/
theorem filter_nonempty_patientId_is_filter
    (l : List AppointmentRec) (patientId : String) (today : Int)
    (h : patientId ≠ "") :
    (filterAppointmentsForPatientAndCountUpcoming l patientId today).patientAppointments =
      l.filter (fun a => decide (getPatientIdFromAppointment a = patientId)) := by
  unfold filterAppointmentsForPatientAndCountUpcoming
  rw [if_neg h]
  exact filterLoop_patientAppointments _ _ _

theorem filter_nonempty_patientId_is_filter_witness :
    ("p1" : String) ≠ "" ∧
    (filterAppointmentsForPatientAndCountUpcoming
        [{ patient := .str "p1", patientId := .nullish, user := .nullish,
           userId := .nullish, appointmentDate := ⟨20300, 600⟩,
           status := "confirmed" },
         { patient := .str "p2", patientId := .nullish, user := .nullish,
           userId := .nullish, appointmentDate := ⟨20300, 600⟩,
           status := "pending" }] "p1" 20300).patientAppointments =
      [{ patient := .str "p1", patientId := .nullish, user := .nullish,
         userId := .nullish, appointmentDate := ⟨20300, 600⟩,
         status := "confirmed" }] := by
  refine ⟨by decide, ?_⟩
  rw [filter_nonempty_patientId_is_filter _ _ _ (by decide)]
  decide

/-- On a well-formed date value the timestamp comparison against a local
midnight coincides with the day-only comparison: the time of day carried
by the date value cannot change the outcome. -/
theorem loopUpcomingTest_dateonly (today : Int) (a : AppointmentRec)
    (h : a.appointmentDate.minuteOfDay < minutesPerDay) :
    loopUpcomingTest (today * minutesPerDay) a =
      (decide (today ≤ a.appointmentDate.day) && statusIsUpcoming a.status) := by
  unfold loopUpcomingTest
  have hiff : (today * (minutesPerDay : Int) ≤ a.appointmentDate.timestamp) ↔
      today ≤ a.appointmentDate.day := by
    unfold LocalDateTime.timestamp minutesPerDay at *
    omega
  rw [decide_eq_decide.mpr hiff]

/-- C3: with a non-empty patientId and well-formed date values, the
upcoming count is the number of owner-matched records whose date is on or
after today under a date-only comparison and whose status is pending or
confirmed. -/
theorem upcomingCount_is_dateonly_count
    (l : List AppointmentRec) (patientId : String) (today : Int)
    (hpid : patientId ≠ "")
    (hwf : ∀ a ∈ l, a.appointmentDate.minuteOfDay < minutesPerDay) :
    (filterAppointmentsForPatientAndCountUpcoming l patientId today).upcomingCount =
      (l.filter (fun a => decide (getPatientIdFromAppointment a = patientId))).countP
        (fun a => decide (today ≤ a.appointmentDate.day) && statusIsUpcoming a.status) := by
  unfold filterAppointmentsForPatientAndCountUpcoming
  rw [if_neg hpid]
  revert hwf
  induction l with
  | nil => intro _; rfl
  | cons a rest ih =>
    intro hwf
    have ha : a.appointmentDate.minuteOfDay < minutesPerDay :=
      hwf a (List.mem_cons_self a rest)
    have ihr := ih (fun x hx => hwf x (List.mem_cons_of_mem a hx))
    simp only [filterLoop, List.filter_cons]
    by_cases h : getPatientIdFromAppointment a = patientId
    · simp only [h, decide_True, if_true, List.countP_cons,
        loopUpcomingTest_dateonly today a ha]
      rw [← ihr]
      split
      · omega
      · omega
    · simp only [h, decide_False, if_false]
      exact ihr

theorem upcomingCount_is_dateonly_count_witness :
    (("p1" : String) ≠ "") ∧
    (filterAppointmentsForPatientAndCountUpcoming
        [{ patient := .str "p1", patientId := .nullish, user := .nullish,
           userId := .nullish, appointmentDate := ⟨20300, 600⟩,
           status := "confirmed" },
         { patient := .str "p1", patientId := .nullish, user := .nullish,
           userId := .nullish, appointmentDate := ⟨20299, 1000⟩,
           status := "pending" },
         { patient := .str "p1", patientId := .nullish, user := .nullish,
           userId := .nullish, appointmentDate := ⟨20301, 0⟩,
           status := "cancelled" }] "p1" 20300).upcomingCount =
      ([{ patient := .str "p1", patientId := .nullish, user := .nullish,
          userId := .nullish, appointmentDate := ⟨20300, 600⟩,
          status := "confirmed" },
        { patient := .str "p1", patientId := .nullish, user := .nullish,
          userId := .nullish, appointmentDate := ⟨20299, 1000⟩,
          status := "pending" },
        { patient := .str "p1", patientId := .nullish, user := .nullish,
          userId := .nullish, appointmentDate := ⟨20301, 0⟩,
          status := "cancelled" }].filter
        (fun a => decide (getPatientIdFromAppointment a = "p1"))).countP
        (fun a => decide ((20300 : Int) ≤ a.appointmentDate.day) &&
          statusIsUpcoming a.status) := by
  refine ⟨by decide, ?_⟩
  exact upcomingCount_is_dateonly_count _ "p1" 20300 (by decide) (by decide)

/-- C9: the upcoming count never exceeds the length of the returned
list, on every input. -/
theorem upcomingCount_le_patientAppointments_length
    (l : List AppointmentRec) (patientId : String) (today : Int) :
    (filterAppointmentsForPatientAndCountUpcoming l patientId today).upcomingCount ≤
      (filterAppointmentsForPatientAndCountUpcoming l patientId today).patientAppointments.length := by
  unfold filterAppointmentsForPatientAndCountUpcoming
  split
  · simp
  · induction l with
    | nil => simp [filterLoop]
    | cons a rest ih =>
      simp only [filterLoop]
      split
      · split
        · simp only [List.length_cons]
          omega
        · simp only [List.length_cons]
          omega
      · exact ih

/-- A JS value taken only when it is a primitive, as the claimed candidate
order demands for the bare owner-ref and user fields. -/
def primOnly : JsVal → JsVal
  | .str s => .str s
  | _ => .nullish

/-- Owner resolution as the claim words it (spec 4.1): the owner-ref
object id, then the owner-ref itself only if it is a primitive, then
patientId, then the user object id, then the user value only if it is a
primitive, then userId; first non-nullish, stringified, default empty. -/
def resolveOwnerIdClaimed (a : AppointmentRec) : String :=
  jsToString
    (coalesce (optIdAccess a.patient)
      (coalesce (primOnly a.patient)
        (coalesce a.patientId
          (coalesce (optIdAccess a.user)
            (coalesce (primOnly a.user) a.userId)))))

/-- An appointment whose patient field is a populated object without a
usable id, with a patientId fallback present. -/
def objNoIdRecord : AppointmentRec :=
  { patient := .obj none, patientId := .str "p3", user := .nullish,
    userId := .nullish, appointmentDate := ⟨20300, 600⟩, status := "pending" }

/-- C4 counterexample: on an owner-ref object without an id the code does
not skip to patientId as the claimed candidate order requires; the bare
object is non-nullish, so the chain stops there and stringifies it. -/
theorem getPatientIdFromAppointment_objNoId_cex :
    getPatientIdFromAppointment objNoIdRecord = "[object Object]" ∧
    resolveOwnerIdClaimed objNoIdRecord = "p3" ∧
    getPatientIdFromAppointment objNoIdRecord ≠ resolveOwnerIdClaimed objNoIdRecord := by
  refine ⟨rfl, rfl, by decide⟩

/-- First value in a candidate list that is not nullish, else nullish. -/
def firstNonNullish : List JsVal → JsVal
  | [] => .nullish
  | v :: rest => if v.isNullish then firstNonNullish rest else v

/-- C4 amended: the code returns the first non-nullish of the six
candidates patient object id, patient, patientId, user object id, user,
userId, with no primitiveness restriction on the bare patient and user
fields, coerced to string with the empty string as default; a record
carrying only userId u1 resolves to u1. -/
theorem getPatientIdFromAppointment_priority (a : AppointmentRec) :
    getPatientIdFromAppointment a =
      jsToString (firstNonNullish
        [optIdAccess a.patient, a.patient, a.patientId,
         optIdAccess a.user, a.user, a.userId]) ∧
    getPatientIdFromAppointment
      { patient := .nullish, patientId := .nullish, user := .nullish,
        userId := .str "u1", appointmentDate := ⟨20300, 600⟩,
        status := "pending" } = "u1" := by
  refine ⟨?_, rfl⟩
  obtain ⟨p, pid, u, uid, d, s⟩ := a
  rcases p with _ | ps | (_ | pi) <;> rcases u with _ | us | (_ | ui) <;>
    cases pid <;> cases uid <;> rfl

/-- A user object: the two id fields, each possibly absent; `none` models
a nullish field.  The surrounding `Option` in the functions below models a
nullish user value. -/
structure UserRec where
  _id : Option String
  id : Option String
deriving DecidableEq, Repr

/-- Embedding of `getCurrentPatientId` (PatientDashboard):
`user ? String(user._id ?? user.id ?? '') : ''`. -/
def getCurrentPatientId (user : Option UserRec) : String :=
  match user with
  | none => ""
  | some u => ((u._id).orElse fun _ => u.id).getD ""

/-- The id computed at the top of `usePatientDashboardData`:
`const userId = user?.id ?? user?._id ?? null`. -/
def dashboardUserId (user : Option UserRec) : Option String :=
  user.bind fun u => (u.id).orElse fun _ => u._id

/-- The id the dashboard effect resolves and hands to
`fetchDashboardData` and from there to the filter:
`const currentPatientId = userId ? String(userId) : ''` (JS truthiness on
a string also rejects the empty string). -/
def dashboardCurrentPatientId (user : Option UserRec) : String :=
  match dashboardUserId user with
  | none => ""
  | some s => if s = "" then "" else s

/-- C5: on a user carrying both ids the dashboard effect prefers `id`
while `getCurrentPatientId` — the exported, tested resolver of the same
file — prefers `_id`, so the id passed to the filter differs from the
specified resolution. -/
theorem dashboardCurrentPatientId_prefers_id :
    dashboardCurrentPatientId (some { _id := some "a", id := some "b" }) = "b" ∧
    getCurrentPatientId (some { _id := some "a", id := some "b" }) = "a" ∧
    dashboardCurrentPatientId (some { _id := some "a", id := some "b" }) ≠
      getCurrentPatientId (some { _id := some "a", id := some "b" }) := by
  refine ⟨rfl, rfl, by decide⟩

/-- The outcomes of the four concurrent fetches of `fetchDashboardData`,
before the locally attached catch handlers.  Payloads that the claims do
not inspect (stats, analyses, trends) are abstracted to opaque strings. -/
structure DashboardFetches where
  statsR : Except String String
  appointmentsR : Except String (List AppointmentRec)
  analysesR : Except String (List String)
  trendsR : Except String (List String)
deriving Repr

/-- The state committed by a successful `fetchDashboardData` cycle. -/
structure DashboardState where
  statsBase : String
  myAppointments : Nat
  upcomingAppointments : Nat
  appointments : List AppointmentRec
  analyses : List String
  trends : List String
deriving DecidableEq, Repr

/-- Outcome of a non-cancelled load cycle: either the batch of state
commits, or the catch block ran `setError(err)`. -/
inductive DashboardOutcome where
  | committed (s : DashboardState)
  | errorState (e : String)
deriving DecidableEq, Repr

/-- Whether the cycle surfaced the visible error state. -/
def DashboardOutcome.isError : DashboardOutcome → Bool
  | .errorState _ => true
  | _ => false

/-- Embedding of `fetchDashboardData` (PatientDashboard) for a
non-cancelled cycle.  The appointments, analyses and trends promises each
carry a local catch substituting an empty collection, so only a stats
rejection reaches the try-catch and `setError`. -/
def fetchDashboardData (f : DashboardFetches) (currentPatientId : String)
    (today : Int) : DashboardOutcome :=
  match f.statsR with
  | .error e => .errorState e
  | .ok stats =>
    let allAppointments :=
      match f.appointmentsR with
      | .ok l => l
      | .error _ => []
    let r := filterAppointmentsForPatientAndCountUpcoming
      allAppointments currentPatientId today
    .committed
      { statsBase := stats
        myAppointments := r.patientAppointments.length
        upcomingAppointments := r.upcomingCount
        appointments := r.patientAppointments
        analyses := match f.analysesR with | .ok l => l | .error _ => []
        trends := match f.trendsR with | .ok l => l | .error _ => [] }

/-- Embedding of the appointments state written by `loadAppointments`
(Appointments.jsx): on success `setAppointments(data ?? [])`, on failure
the catch runs `setAppointments([])`; the page has no error state for the
load at all. -/
def loadAppointmentsState
    (r : Except String (Option (List AppointmentRec))) :
    List AppointmentRec :=
  match r with
  | .ok d => d.getD []
  | .error _ => []

/-- Embedding of the doctors state after `loadDoctors` (Appointments.jsx)
runs against the previous state `prev` (the initial state is `[]`): on
success `setDoctors(users ?? [])`, on failure the catch only logs a static
message and writes nothing, so the previous state stands; the page has no
error state for this load either.  Doctor payloads are abstracted to
opaque strings. -/
def loadDoctorsState (prev : List String)
    (r : Except String (Option (List String))) : List String :=
  match r with
  | .ok users => users.getD []
  | .error _ => prev

/-- A cycle in which only the appointments fetch fails. -/
def appointmentsFetchDown : DashboardFetches :=
  { statsR := .ok "stats", appointmentsR := .error "network down",
    analysesR := .ok ["analysis1"], trendsR := .ok ["trend1"] }

/-- C6 counterexample: a failing appointments fetch does not surface the
visible error state; the cycle commits with an empty appointments list. -/
theorem appointments_failure_not_surfaced :
    (fetchDashboardData appointmentsFetchDown "p1" 20300).isError = false ∧
    fetchDashboardData appointmentsFetchDown "p1" 20300 =
      .committed
        { statsBase := "stats", myAppointments := 0,
          upcomingAppointments := 0, appointments := [],
          analyses := ["analysis1"], trends := ["trend1"] } := by
  refine ⟨rfl, by decide⟩

theorem filterAppointments_nil (patientId : String) (today : Int) :
    filterAppointmentsForPatientAndCountUpcoming [] patientId today =
      { patientAppointments := [], upcomingCount := 0 } := by
  unfold filterAppointmentsForPatientAndCountUpcoming
  split <;> rfl

/-- C6 amended: the stats fetch is the primary one — its rejection is the
only error that escapes the individually guarded fetches and it surfaces
the visible error state with the specific error retained — while a failing
appointments, analyses or trends fetch is recovered by substituting an
empty collection and never surfaces as an error; the Appointments page
likewise degrades a failing appointments fetch to an empty list, and its
failing doctor-list fetch is never surfaced as an error and leaves the
doctor list in its previous state, the initial state being empty. -/
theorem fetch_error_handling
    (f : DashboardFetches) (pid : String) (today : Int)
    (stats e e1 e2 e3 : String) (prevDoctors : List String)
    (h : f.statsR = .ok stats) :
    fetchDashboardData { f with statsR := .error e } pid today = .errorState e ∧
    (fetchDashboardData f pid today).isError = false ∧
    fetchDashboardData
        { statsR := .ok stats, appointmentsR := .error e1,
          analysesR := .error e2, trendsR := .error e3 } pid today =
      .committed
        { statsBase := stats, myAppointments := 0,
          upcomingAppointments := 0, appointments := [],
          analyses := [], trends := [] } ∧
    loadAppointmentsState (.error e1) = [] ∧
    loadDoctorsState prevDoctors (.error e1) = prevDoctors ∧
    loadDoctorsState [] (.error e1) = [] := by
  refine ⟨rfl, ?_, ?_, rfl, rfl, rfl⟩
  · simp only [fetchDashboardData, h]
    rfl
  · simp only [fetchDashboardData, filterAppointments_nil, List.length_nil]

theorem fetch_error_handling_witness :
    ((⟨.ok "stats", .ok [], .ok [], .ok []⟩ : DashboardFetches).statsR =
      .ok "stats") ∧
    (fetchDashboardData ⟨.ok "stats", .ok [], .ok [], .ok []⟩
      "p1" 20300).isError = false ∧
    loadDoctorsState ["doc1"] (.error "e1") = ["doc1"] :=
  ⟨rfl,
    (fetch_error_handling ⟨.ok "stats", .ok [], .ok [], .ok []⟩ "p1" 20300
      "stats" "e" "e1" "e2" "e3" ["doc1"] rfl).2.1,
    (fetch_error_handling ⟨.ok "stats", .ok [], .ok [], .ok []⟩ "p1" 20300
      "stats" "e" "e1" "e2" "e3" ["doc1"] rfl).2.2.2.2.1⟩

/-- `BUSINESS_HOURS.start` (9 AM). -/
def BUSINESS_HOURS_start : Nat := 9

/-- `BUSINESS_HOURS.end` (5 PM); `end` is a Lean keyword, hence `stop`. -/
def BUSINESS_HOURS_stop : Nat := 17

/-- `REASON_MIN_LENGTH`. -/
def REASON_MIN_LENGTH : Nat := 10

/-- JS `String.prototype.split` with a one-character separator, on the
character list of the string. -/
def splitChars (sep : Char) : List Char → List (List Char)
  | [] => [[]]
  | c :: rest =>
    let r := splitChars sep rest
    if c = sep then [] :: r
    else
      match r with
      | [] => [[c]]
      | g :: gs => (c :: g) :: gs

/-- Value of a non-empty all-digit character group, `none` otherwise. -/
def digitsToNat (l : List Char) : Option Nat :=
  if l ≠ [] ∧ l.all Char.isDigit then
    some (l.foldl (fun n c => n * 10 + (c.toNat - 48)) 0)
  else none

/-- JS `Number()` on the component shapes a split time string yields: the
empty string is 0, digit strings their value, anything else NaN,
modelled as `none` (every comparison against NaN is false). -/
def jsNumber (l : List Char) : Option Nat :=
  if l = [] then some 0 else digitsToNat l

/-- Model of `new Date(dateStr)` followed by `setHours(0,0,0,0)` on a
date-only ISO string `YYYY-MM-DD`: the day is encoded as
`y*10000 + m*100 + d`, an encoding whose order agrees with calendar order
on valid dates; `none` models an invalid date. -/
def parseDateDay (s : String) : Option Nat :=
  match splitChars '-' s.data with
  | [y, m, d] => do
    let yn ← digitsToNat y
    let mn ← digitsToNat m
    let dn ← digitsToNat d
    pure (yn * 10000 + mn * 100 + dn)
  | _ => none

/-- Embedding of `isDateInFuture` (Appointments.jsx); `todayKey` is the
day encoding of the hidden clock reading. -/
def isDateInFuture (todayKey : Nat) (dateStr : String) : Bool :=
  if dateStr = "" then false
  else
    match parseDateDay dateStr with
    | none => false
    | some d => decide (todayKey ≤ d)

/-- Embedding of `isBusinessHours` (Appointments.jsx):
`const [h, m] = timeStr.split(':').map(Number)` followed by the inclusive
minute-range test; a missing second component is `undefined`, so `m ?? 0`
is 0, while a non-numeric component is NaN and fails every comparison. -/
def isBusinessHours (timeStr : String) : Bool :=
  if timeStr = "" then false
  else
    match splitChars ':' timeStr.data with
    | [] => false
    | h0 :: rest =>
      let hcomp := jsNumber h0
      let mcomp :=
        match rest with
        | [] => some 0
        | m0 :: _ => jsNumber m0
      match hcomp, mcomp with
      | some h, some m =>
        let minutes := h * 60 + m
        decide (BUSINESS_HOURS_start * 60 ≤ minutes ∧
          minutes ≤ BUSINESS_HOURS_stop * 60)
      | _, _ => false

/-- JS `String.prototype.trim`: strip leading and trailing whitespace
from the character list. -/
def trimChars (l : List Char) : List Char :=
  ((l.dropWhile Char.isWhitespace).reverse.dropWhile Char.isWhitespace).reverse

/-- Embedding of `getFieldValidationError` (Appointments.jsx).  The JS
truthiness test `value ?` on a string is the non-empty test; the switch on
the field name is the if-chain; `value.trim().length` is the length of the
trimmed character list. -/
def getFieldValidationError (todayKey : Nat) (name value : String) : String :=
  if name = "doctor" then
    if value = "" then "Doctor selection is required" else ""
  else if name = "appointmentDate" then
    if value = "" then ""
    else if isDateInFuture todayKey value then ""
    else "Date must be in the future"
  else if name = "appointmentTime" then
    if value = "" then ""
    else if isBusinessHours value then ""
    else "Time must be during business hours (9 AM - 17 PM)"
  else if name = "reason" then
    if value = "" then "Reason must be at least 10 characters"
    else if REASON_MIN_LENGTH ≤ (trimChars value.data).length then ""
    else "Reason must be at least 10 characters"
  else ""

theorem getFieldValidationError_doctor (todayKey : Nat) (v : String) :
    getFieldValidationError todayKey "doctor" v =
      if v = "" then "Doctor selection is required" else "" := rfl

theorem getFieldValidationError_date (todayKey : Nat) (v : String) :
    getFieldValidationError todayKey "appointmentDate" v =
      if v = "" then ""
      else if isDateInFuture todayKey v then ""
      else "Date must be in the future" := rfl

theorem getFieldValidationError_time (todayKey : Nat) (v : String) :
    getFieldValidationError todayKey "appointmentTime" v =
      if v = "" then ""
      else if isBusinessHours v then ""
      else "Time must be during business hours (9 AM - 17 PM)" := rfl

theorem getFieldValidationError_reason (todayKey : Nat) (v : String) :
    getFieldValidationError todayKey "reason" v =
      if v = "" then "Reason must be at least 10 characters"
      else if REASON_MIN_LENGTH ≤ (trimChars v.data).length then ""
      else "Reason must be at least 10 characters" := rfl

/-- C7: the empty value passes for the date and time fields but fails for
the reason field, and a non-empty reason passes exactly when its trimmed
length reaches 10. -/
theorem fieldError_empty_asymmetry (todayKey : Nat) (v : String)
    (hv : v ≠ "") :
    getFieldValidationError todayKey "appointmentDate" "" = "" ∧
    getFieldValidationError todayKey "appointmentTime" "" = "" ∧
    getFieldValidationError todayKey "reason" "" ≠ "" ∧
    (getFieldValidationError todayKey "reason" v = "" ↔
      REASON_MIN_LENGTH ≤ (trimChars v.data).length) := by
  refine ⟨rfl, rfl, ?_, ?_⟩
  · rw [getFieldValidationError_reason, if_pos rfl]
    decide
  rw [getFieldValidationError_reason, if_neg hv]
  by_cases hlen : REASON_MIN_LENGTH ≤ (trimChars v.data).length
  · rw [if_pos hlen]
    simp [hlen]
  · rw [if_neg hlen]
    exact iff_of_false (by decide) hlen

theorem fieldError_empty_asymmetry_witness :
    (("long enough!!" : String) ≠ "") ∧
    (getFieldValidationError 0 "reason" "long enough!!" = "" ↔
      REASON_MIN_LENGTH ≤ (trimChars ("long enough!!" : String).data).length) :=
  ⟨by decide, (fieldError_empty_asymmetry 0 "long enough!!" (by decide)).2.2.2⟩

/-- Two-digit zero-padded clock component. -/
def pad2 (n : Nat) : String :=
  (if n < 10 then "0" else "") ++ toString n

/-- The `HH:MM` string a time input produces. -/
def timeString (h m : Nat) : String := pad2 h ++ ":" ++ pad2 m

/-- C8: over every clock time the predicate accepts exactly the inclusive
minute range from 09:00 through 17:00, and the five boundary examples of
the spec evaluate accordingly. -/
theorem isBusinessHours_inclusive_range :
    (∀ h : Fin 24, ∀ m : Fin 60,
      isBusinessHours (timeString h.val m.val) =
        decide (540 ≤ h.val * 60 + m.val ∧ h.val * 60 + m.val ≤ 1020)) ∧
    isBusinessHours "08:59" = false ∧
    isBusinessHours "09:00" = true ∧
    isBusinessHours "17:00" = true ∧
    isBusinessHours "17:01" = false ∧
    isBusinessHours "" = false :=
  ⟨by decide, rfl, rfl, rfl, rfl, rfl⟩

/-- The booking-form state (`initialFormData` shape). -/
structure BookingFormData where
  doctor : String
  appointmentDate : String
  appointmentTime : String
  reason : String
  symptoms : String
deriving DecidableEq, Repr

/-- The field-error map (`initialErrors` shape). -/
structure FieldErrors where
  doctor : String
  appointmentDate : String
  appointmentTime : String
  reason : String
deriving DecidableEq, Repr

/-- Embedding of `validateBookingForm` (Appointments.jsx). -/
def validateBookingForm (todayKey : Nat) (data : BookingFormData) :
    FieldErrors :=
  { doctor := getFieldValidationError todayKey "doctor" data.doctor
    appointmentDate :=
      getFieldValidationError todayKey "appointmentDate" data.appointmentDate
    appointmentTime :=
      getFieldValidationError todayKey "appointmentTime" data.appointmentTime
    reason := getFieldValidationError todayKey "reason" data.reason }

/-- Embedding of the `isFormValid` memo: every field error is falsy
(the empty string). -/
def isFormValid (todayKey : Nat) (data : BookingFormData) : Bool :=
  let e := validateBookingForm todayKey data
  decide (e.doctor = "" ∧ e.appointmentDate = "" ∧
    e.appointmentTime = "" ∧ e.reason = "")

/-- Whether `handleSubmit` passes its submit-time validation and reaches
`appointmentService.create`: it returns early exactly when some
recomputed field error is truthy. -/
def handleSubmitProceeds (todayKey : Nat) (data : BookingFormData) : Bool :=
  let e := validateBookingForm todayKey data
  !(decide (e.doctor ≠ "") || decide (e.appointmentDate ≠ "") ||
    decide (e.appointmentTime ≠ "") || decide (e.reason ≠ ""))

/-- C10: a form with a non-empty doctor, a reason of trimmed length at
least 10, and empty date and time fields produces the all-empty error
map, counts as valid (submit enabled), and passes the submit-time
validation of `handleSubmit`, so the booking proceeds with no date and no
time. -/
theorem empty_date_time_form_submits (todayKey : Nat)
    (data : BookingFormData) (hdoc : data.doctor ≠ "")
    (hre : REASON_MIN_LENGTH ≤ (trimChars data.reason.data).length)
    (hdate : data.appointmentDate = "") (htime : data.appointmentTime = "") :
    validateBookingForm todayKey data =
      { doctor := "", appointmentDate := "", appointmentTime := "",
        reason := "" } ∧
    isFormValid todayKey data = true ∧
    handleSubmitProceeds todayKey data = true := by
  have hrne : data.reason ≠ "" := by
    intro h0
    rw [h0] at hre
    exact absurd hre (by decide)
  have hv : validateBookingForm todayKey data =
      { doctor := "", appointmentDate := "", appointmentTime := "",
        reason := "" } := by
    unfold validateBookingForm
    rw [getFieldValidationError_doctor, if_neg hdoc,
      getFieldValidationError_date, hdate, if_pos rfl,
      getFieldValidationError_time, htime, if_pos rfl,
      getFieldValidationError_reason, if_neg hrne, if_pos hre]
  refine ⟨hv, ?_, ?_⟩
  · unfold isFormValid
    rw [hv]
    decide
  · unfold handleSubmitProceeds
    rw [hv]
    decide

theorem empty_date_time_form_submits_witness :
    ((⟨"d1", "", "", "long enough!!", ""⟩ : BookingFormData).doctor ≠ "") ∧
    (REASON_MIN_LENGTH ≤ (trimChars
      (⟨"d1", "", "", "long enough!!", ""⟩ : BookingFormData).reason.data).length) ∧
    isFormValid 0 ⟨"d1", "", "", "long enough!!", ""⟩ = true :=
  ⟨by decide, by decide,
    (empty_date_time_form_submits 0 ⟨"d1", "", "", "long enough!!", ""⟩
      (by decide) (by decide) rfl rfl).2.1⟩

end DexTest
